import Mathlib

/-!
Shallow embedding of the LN point-neuron response model of the
CSHL cross-orientation-interaction toolkit
(src/cshl_project/point_model.py and src/cshl_project/nonlinearity.py).

Real numbers stand for python floats; numpy elementwise operations on a
phase array become List.map over a list of phases; the complex vector of
the plaid computation is a Lean Complex number.  Where numpy float
division by zero yields NaN, Lean real division yields 0; both are
ordinary values (no exception is raised), which is what matters for the
error-handling claims.
-/

/-- Rectified linear unit, from nonlinearity.py relu: on a scalar it
returns 0 if x < 0 else x (the ndarray branch does the same elementwise). -/
noncomputable def relu (x : ℝ) : ℝ :=
  if x < 0 then 0 else x

/-- Subunit model: LGNnode of point_model.py.  center is the 2-d location,
nonlinear the nonlinearity function, Rmax, C50, Rbase the parameters of
the contrast response function. -/
structure LGNnode where
  center : ℝ × ℝ
  nonlinear : ℝ → ℝ
  Rmax : ℝ
  C50 : ℝ
  Rbase : ℝ

namespace LGNnode

/-- Contrast response function, LGNnode._get_contrast_response:
Rmax * contrast^order / (contrast^order + C50^order) + Rbase.
The python call sites use the default order = 1; here order is passed
explicitly.  The python float power becomes Real.rpow. -/
noncomputable def get_contrast_response (u : LGNnode) (contrast : ℝ) (order : ℝ) : ℝ :=
  u.Rmax * contrast ^ order / (contrast ^ order + u.C50 ^ order) + u.Rbase

/-- Spatial phase offset of a grating of orientation ori at the subunit
center: the row vector [cos ori, sin ori] matrix-multiplied with the
center column vector, divided by sf, times 2π
(the expression assigned to the local variable of LGNnode._get_sinusoidal). -/
noncomputable def dist_phase (u : LGNnode) (ori sf : ℝ) : ℝ :=
  (Real.cos ori * u.center.1 + Real.sin ori * u.center.2) / sf * 2 * Real.pi

/-- LGNnode._get_sinusoidal: returns (luminance * 2, contrast) where
luminance = sin(distPhase + phase). -/
noncomputable def get_sinusoidal (u : LGNnode) (ori contrast phase sf : ℝ) : ℝ × ℝ :=
  (Real.sin (u.dist_phase ori sf + phase) * 2, contrast)

/-- The summed complex vector of LGNnode._get_sinusoidal_plaid:
contrast1 * exp(i distPhase1) + contrast2 * exp(i (distPhase2 + Δphase)),
the local variable of that method. -/
noncomputable def plaid_vec (u : LGNnode) (ori1 ori2 contrast1 contrast2 Δphase sf : ℝ) : ℂ :=
  (contrast1 : ℂ) * Complex.exp ((u.dist_phase ori1 sf : ℝ) * Complex.I) +
    (contrast2 : ℂ) * Complex.exp ((u.dist_phase ori2 sf + Δphase : ℝ) * Complex.I)

/-- LGNnode._get_sinusoidal_plaid: returns (luminance * 2, |vec|) where
luminance = sin(angle(vec) + phase). -/
noncomputable def get_sinusoidal_plaid
    (u : LGNnode) (ori1 ori2 contrast1 contrast2 phase Δphase sf : ℝ) : ℝ × ℝ :=
  (Real.sin (Complex.arg (u.plaid_vec ori1 ori2 contrast1 contrast2 Δphase sf) + phase) * 2,
    Complex.abs (u.plaid_vec ori1 ori2 contrast1 contrast2 Δphase sf))

/-- LGNnode.get_response_grating at a single (scalar) phase:
nonlinear(contrast_response(c) * l) with (l, c) = _get_sinusoidal(...). -/
noncomputable def get_response_grating (u : LGNnode) (ori contrast phase sf : ℝ) : ℝ :=
  u.nonlinear (u.get_contrast_response (u.get_sinusoidal ori contrast phase sf).2 1 *
    (u.get_sinusoidal ori contrast phase sf).1)

/-- LGNnode.get_response_grating with an array of phases: numpy broadcasts
sin(distPhase + phase) elementwise over the phase array and the
nonlinearity elementwise over the result, so the curve is the elementwise
map of the scalar response. -/
noncomputable def get_response_grating_curve
    (u : LGNnode) (ori contrast : ℝ) (phases : List ℝ) (sf : ℝ) : List ℝ :=
  phases.map (fun p => u.get_response_grating ori contrast p sf)

/-- LGNnode.get_response_plaid at a single (scalar) phase:
nonlinear(contrast_response(c) * l) with (l, c) = _get_sinusoidal_plaid(...). -/
noncomputable def get_response_plaid
    (u : LGNnode) (ori1 ori2 contrast1 contrast2 phase Δphase sf : ℝ) : ℝ :=
  u.nonlinear
    (u.get_contrast_response (u.get_sinusoidal_plaid ori1 ori2 contrast1 contrast2 phase Δphase sf).2 1 *
      (u.get_sinusoidal_plaid ori1 ori2 contrast1 contrast2 phase Δphase sf).1)

/-- LGNnode.get_response_plaid with an array of phases, elementwise as in
the grating case. -/
noncomputable def get_response_plaid_curve
    (u : LGNnode) (ori1 ori2 contrast1 contrast2 : ℝ) (phases : List ℝ) (Δphase sf : ℝ) : List ℝ :=
  phases.map (fun p => u.get_response_plaid ori1 ori2 contrast1 contrast2 p Δphase sf)

end LGNnode

/-- Population model: V1node of point_model.py.  subunits is the ordered
list of LGN subunits; nonlinear is stored by the constructor. -/
structure V1node where
  subunits : List LGNnode
  nonlinear : ℝ → ℝ

namespace V1node

/-- np.linspace(0, 2π(1 - 1/length), length): length evenly spaced samples
from 0 to 2π(1 - 1/length) inclusive; numpy returns the single start point
when length = 1. -/
noncomputable def phase_steps (length : ℕ) : List ℝ :=
  if length = 1 then [0]
  else (List.range length).map
    (fun i => (i : ℝ) * (2 * Real.pi * (1 - 1 / (length : ℝ))) / ((length : ℝ) - 1))

/-- V1node.get_response_grating: start from np.zeros(length), add each
subunit's grating response curve at phases _step + phase, divide by the
number of subunits.  numpy division by len(subunits) = 0 silently
produces a NaN array; in ℝ Lean's x / 0 = 0 stands in for it — in both
semantics a value, not an error, is returned. -/
noncomputable def get_response_grating
    (v : V1node) (length : ℕ) (phase ori contrast sf : ℝ) : List ℝ :=
  (v.subunits.foldl
    (fun acc u =>
      List.zipWith (· + ·) acc
        (u.get_response_grating_curve ori contrast ((phase_steps length).map (· + phase)) sf))
    (List.replicate length 0)).map
    (fun x => x / (v.subunits.length : ℝ))

/-- V1node.get_response_plaid: same aggregation, delegating to the plaid
response of each subunit. -/
noncomputable def get_response_plaid
    (v : V1node) (length : ℕ) (phase ori1 ori2 contrast1 contrast2 Δphase sf : ℝ) : List ℝ :=
  (v.subunits.foldl
    (fun acc u =>
      List.zipWith (· + ·) acc
        (u.get_response_plaid_curve ori1 ori2 contrast1 contrast2
          ((phase_steps length).map (· + phase)) Δphase sf))
    (List.replicate length 0)).map
    (fun x => x / (v.subunits.length : ℝ))

end V1node

/-- Concrete subunit with off-center location, relu nonlinearity and the
default contrast response parameters, used by the witnesses. -/
noncomputable def u_relu : LGNnode :=
  ⟨(1, 2), relu, 113/10, 1/2, 0⟩

/-- Concrete subunit with nonzero baseline response Rbase = 1, placed at
the origin, used by the C5 counterexample. -/
noncomputable def u_base : LGNnode :=
  ⟨(0, 0), relu, 113/10, 1/2, 1⟩

/-- Concrete summed plaid vector of u_relu for the plaid stimulus with
ori1 = 0, ori2 = π/2, both contrasts 48/100, Δphase = 0, sf = 50. -/
noncomputable def plaid_vec_example : ℂ :=
  ((48/100 : ℝ) : ℂ) * Complex.exp
      (((u_relu.center.1 * Real.cos 0 + u_relu.center.2 * Real.sin 0) / 50 *
          (2 * Real.pi) : ℝ) * Complex.I) +
    ((48/100 : ℝ) : ℂ) * Complex.exp
      (((u_relu.center.1 * Real.cos (Real.pi/2) + u_relu.center.2 * Real.sin (Real.pi/2)) / 50 *
          (2 * Real.pi) + 0 : ℝ) * Complex.I)

/-! Helper lemmas about the modulus and argument of a positively scaled
unit phasor, shared by the plaid degeneration results. -/

/-- Modulus of r * exp(iθ) for nonnegative real r. -/
lemma abs_real_mul_exp_mul_I (r θ : ℝ) (hr : 0 ≤ r) :
    Complex.abs ((r : ℂ) * Complex.exp ((θ : ℂ) * Complex.I)) = r := by
  rw [map_mul, Complex.abs_exp_ofReal_mul_I, Complex.abs_ofReal, abs_of_nonneg hr, mul_one]

/-- Sine of the shifted argument of r * exp(iθ) for positive real r:
the principal argument differs from θ by a multiple of 2π, invisible to sin. -/
lemma sin_arg_real_mul_exp_mul_I (r θ p : ℝ) (hr : 0 < r) :
    Real.sin (Complex.arg ((r : ℂ) * Complex.exp ((θ : ℂ) * Complex.I)) + p) =
      Real.sin (θ + p) := by
  have hne : ((r : ℂ) * Complex.exp ((θ : ℂ) * Complex.I)) ≠ 0 :=
    mul_ne_zero (by exact_mod_cast ne_of_gt hr) (Complex.exp_ne_zero _)
  have him : ((r : ℂ) * Complex.exp ((θ : ℂ) * Complex.I)).im = r * Real.sin θ := by
    rw [Complex.exp_mul_I]; simp [Complex.mul_im, Complex.sin_ofReal_re, Complex.cos_ofReal_re]
  have hre : ((r : ℂ) * Complex.exp ((θ : ℂ) * Complex.I)).re = r * Real.cos θ := by
    rw [Complex.exp_mul_I]; simp [Complex.mul_re, Complex.sin_ofReal_re, Complex.cos_ofReal_re]
  rw [Real.sin_add, Real.sin_add, Complex.sin_arg, Complex.cos_arg hne,
    abs_real_mul_exp_mul_I r θ hr.le, him, hre]
  field_simp

/-- Scalar grating response written as the closed-form formula of the spec:
nonlinear(CR(contrast) * 2 * sin((x cos ori + y sin ori) / sf * 2π + phase)). -/
lemma grating_scalar_formula (u : LGNnode) (ori contrast phase sf : ℝ) :
    u.get_response_grating ori contrast phase sf =
      u.nonlinear ((u.Rmax * contrast / (contrast + u.C50) + u.Rbase) *
        (2 * Real.sin
          ((u.center.1 * Real.cos ori + u.center.2 * Real.sin ori) / sf * (2 * Real.pi) + phase))) := by
  have h : u.dist_phase ori sf =
      (u.center.1 * Real.cos ori + u.center.2 * Real.sin ori) / sf * (2 * Real.pi) := by
    unfold LGNnode.dist_phase; ring
  simp only [LGNnode.get_response_grating, LGNnode.get_sinusoidal,
    LGNnode.get_contrast_response, Real.rpow_one, h]
  exact congrArg u.nonlinear (by ring)

/-- Scalar plaid response written as the closed-form formula of the spec,
phrased through an explicitly given summed complex vector v. -/
lemma plaid_scalar_formula (u : LGNnode)
    (ori1 ori2 contrast1 contrast2 phase Δphase sf : ℝ) (v : ℂ)
    (hv : v = (contrast1 : ℂ) * Complex.exp
        (((u.center.1 * Real.cos ori1 + u.center.2 * Real.sin ori1) / sf * (2 * Real.pi) : ℝ) *
          Complex.I) +
      (contrast2 : ℂ) * Complex.exp
        (((u.center.1 * Real.cos ori2 + u.center.2 * Real.sin ori2) / sf * (2 * Real.pi) + Δphase : ℝ) *
          Complex.I)) :
    u.get_response_plaid ori1 ori2 contrast1 contrast2 phase Δphase sf =
      u.nonlinear ((u.Rmax * Complex.abs v / (Complex.abs v + u.C50) + u.Rbase) *
        (2 * Real.sin (Complex.arg v + phase))) := by
  have h1 : u.dist_phase ori1 sf =
      (u.center.1 * Real.cos ori1 + u.center.2 * Real.sin ori1) / sf * (2 * Real.pi) := by
    unfold LGNnode.dist_phase; ring
  have h2 : u.dist_phase ori2 sf + Δphase =
      (u.center.1 * Real.cos ori2 + u.center.2 * Real.sin ori2) / sf * (2 * Real.pi) + Δphase := by
    unfold LGNnode.dist_phase; ring
  have hvec : u.plaid_vec ori1 ori2 contrast1 contrast2 Δphase sf = v := by
    rw [hv]
    unfold LGNnode.plaid_vec
    rw [h1, h2]
  simp only [LGNnode.get_response_plaid, LGNnode.get_sinusoidal_plaid,
    LGNnode.get_contrast_response, Real.rpow_one, hvec]
  exact congrArg u.nonlinear (by ring)

/-- Scalar form of the degeneration of the plaid response to the grating
response when the second contrast is zero. -/
lemma plaid_c2_zero_scalar (u : LGNnode) (ori1 ori2 contrast phase Δphase sf : ℝ)
    (hc : 0 < contrast) :
    u.get_response_plaid ori1 ori2 contrast 0 phase Δphase sf =
      u.get_response_grating ori1 contrast phase sf := by
  have hvec : u.plaid_vec ori1 ori2 contrast 0 Δphase sf =
      (contrast : ℂ) * Complex.exp ((u.dist_phase ori1 sf : ℝ) * Complex.I) := by
    unfold LGNnode.plaid_vec; simp
  simp only [LGNnode.get_response_plaid, LGNnode.get_sinusoidal_plaid, hvec,
    abs_real_mul_exp_mul_I _ _ hc.le, sin_arg_real_mul_exp_mul_I _ _ _ hc,
    LGNnode.get_response_grating, LGNnode.get_sinusoidal]

/-- Nonnegativity of relu. -/
lemma relu_nonneg (x : ℝ) : 0 ≤ relu x := by
  unfold relu
  split
  · exact le_rfl
  · exact le_of_not_lt (by assumption)

/-- A subunit with the relu nonlinearity returns a nonnegative grating response. -/
lemma grating_response_nonneg (u : LGNnode) (hnl : u.nonlinear = relu)
    (ori contrast phase sf : ℝ) : 0 ≤ u.get_response_grating ori contrast phase sf := by
  rw [LGNnode.get_response_grating, hnl]
  exact relu_nonneg _

/-- A subunit with the relu nonlinearity returns a nonnegative plaid response. -/
lemma plaid_response_nonneg (u : LGNnode) (hnl : u.nonlinear = relu)
    (ori1 ori2 contrast1 contrast2 phase Δphase sf : ℝ) :
    0 ≤ u.get_response_plaid ori1 ori2 contrast1 contrast2 phase Δphase sf := by
  rw [LGNnode.get_response_plaid, hnl]
  exact relu_nonneg _

/-- Elementwise sum of two elementwise-nonnegative lists is elementwise
nonnegative. -/
lemma zipWith_add_nonneg {a b : List ℝ} (ha : ∀ x ∈ a, 0 ≤ x) (hb : ∀ x ∈ b, 0 ≤ x) :
    ∀ x ∈ List.zipWith (· + ·) a b, 0 ≤ x := by
  induction a generalizing b with
  | nil => simp
  | cons hd tl ih =>
    cases b with
    | nil => simp
    | cons hd2 tl2 =>
      intro x hx
      rw [List.zipWith_cons_cons, List.mem_cons] at hx
      rcases hx with h | h
      · subst h
        exact add_nonneg (ha hd (List.mem_cons_self hd tl)) (hb hd2 (List.mem_cons_self hd2 tl2))
      · exact ih (fun y hy => ha y (List.mem_cons_of_mem _ hy))
          (fun y hy => hb y (List.mem_cons_of_mem _ hy)) x h

/-- The accumulation loop of the population model preserves elementwise
nonnegativity of the accumulator when every subunit curve is elementwise
nonnegative. -/
lemma foldl_zipWith_add_nonneg (subs : List LGNnode) (f : LGNnode → List ℝ)
    (hf : ∀ u ∈ subs, ∀ x ∈ f u, 0 ≤ x) :
    ∀ init : List ℝ, (∀ x ∈ init, 0 ≤ x) →
      ∀ x ∈ subs.foldl (fun acc u => List.zipWith (· + ·) acc (f u)) init, 0 ≤ x := by
  induction subs with
  | nil => intro init hinit x hx; exact hinit x hx
  | cons hd tl ih =>
    intro init hinit x hx
    rw [List.foldl_cons] at hx
    exact ih (fun u hu => hf u (List.mem_cons_of_mem _ hu))
      (List.zipWith (· + ·) init (f hd))
      (zipWith_add_nonneg hinit (hf hd (List.mem_cons_self hd tl))) x hx

/-- C1: the population aggregation over an empty subunit list does not
raise an empty-population error; it returns the length-many samples of
the zero accumulator divided by the subunit count 0.  In numpy this
division emits a NaN array silently (RuntimeWarning, not an exception);
in this real-number embedding the entries are Lean's 0 / 0.  Either way
a value is produced, contradicting the claim that an explicit
empty-population error occurs. -/
theorem empty_population_returns_value :
    (V1node.mk [] relu).get_response_grating 3 0 0 (48/100) 50 =
        List.replicate 3 ((0 : ℝ) / 0) ∧
      (V1node.mk [] relu).get_response_plaid 3 0 0 0 (48/100) (48/100) 0 50 =
        List.replicate 3 ((0 : ℝ) / 0) := by
  constructor <;>
    simp [V1node.get_response_grating, V1node.get_response_plaid, List.replicate]

/-- C2: the Population Model's own nonlinearity field is never invoked
during pooling: two V1 nodes over the same subunits but different
nonlinearities produce identical grating and plaid response curves for
every identical choice of length, phase and stimulus parameters. -/
theorem v1_nonlinearity_unused
    (subunits : List LGNnode) (nl1 nl2 : ℝ → ℝ) (length : ℕ)
    (phase ori contrast sf ori1 ori2 contrast1 contrast2 Δphase sf2 : ℝ) :
    (V1node.mk subunits nl1).get_response_grating length phase ori contrast sf =
        (V1node.mk subunits nl2).get_response_grating length phase ori contrast sf ∧
      (V1node.mk subunits nl1).get_response_plaid
          length phase ori1 ori2 contrast1 contrast2 Δphase sf2 =
        (V1node.mk subunits nl2).get_response_plaid
          length phase ori1 ori2 contrast1 contrast2 Δphase sf2 :=
  ⟨rfl, rfl⟩

/-- C3: for every subunit and stimulus with sf ≠ 0, the grating response
equals nonlinear(CR(contrast) * 2 * sin((x cos ori + y sin ori) / sf * 2π
+ phase)) with CR(c) = Rmax c / (c + C50) + Rbase, and for an array of
phases the curve is this formula applied elementwise. -/
theorem grating_response_formula (u : LGNnode)
    (ori contrast phase sf : ℝ) (phases : List ℝ) (hsf : sf ≠ 0) :
    u.get_response_grating ori contrast phase sf =
      u.nonlinear ((u.Rmax * contrast / (contrast + u.C50) + u.Rbase) *
        (2 * Real.sin
          ((u.center.1 * Real.cos ori + u.center.2 * Real.sin ori) / sf * (2 * Real.pi) + phase))) ∧
    u.get_response_grating_curve ori contrast phases sf =
      phases.map (fun p =>
        u.nonlinear ((u.Rmax * contrast / (contrast + u.C50) + u.Rbase) *
          (2 * Real.sin
            ((u.center.1 * Real.cos ori + u.center.2 * Real.sin ori) / sf * (2 * Real.pi) + p)))) := by
  constructor
  · exact grating_scalar_formula u ori contrast phase sf
  · unfold LGNnode.get_response_grating_curve
    exact congrArg (fun f => List.map f phases)
      (funext fun p => grating_scalar_formula u ori contrast p sf)

/-- Witness for C3 at the concrete subunit u_relu and stimulus
ori = 0, contrast = 48/100, phase = 0, sf = 50. -/
theorem grating_response_formula_witness :
    (50:ℝ) ≠ 0 ∧
      u_relu.get_response_grating 0 (48/100) 0 50 =
        u_relu.nonlinear ((u_relu.Rmax * (48/100) / (48/100 + u_relu.C50) + u_relu.Rbase) *
          (2 * Real.sin
            ((u_relu.center.1 * Real.cos 0 + u_relu.center.2 * Real.sin 0) / 50 *
              (2 * Real.pi) + 0))) :=
  ⟨by norm_num, (grating_response_formula u_relu 0 (48/100) 0 50 [] (by norm_num)).1⟩

/-- C4: for every subunit and stimulus with sf ≠ 0, the plaid response
equals nonlinear(CR(|v|) * 2 * sin(arg(v) + phase)) where v is the sum of
the complex vectors contrast1 * exp(i ϕ1) and contrast2 * exp(i ϕ2), the
ϕi are the spatial phase offsets at the subunit center with Δphase added
to ϕ2 only, and the effective contrast is |v|; elementwise for an array
of phases. -/
theorem plaid_response_formula (u : LGNnode)
    (ori1 ori2 contrast1 contrast2 phase Δphase sf : ℝ) (phases : List ℝ) (v : ℂ)
    (hsf : sf ≠ 0)
    (hv : v = (contrast1 : ℂ) * Complex.exp
        (((u.center.1 * Real.cos ori1 + u.center.2 * Real.sin ori1) / sf * (2 * Real.pi) : ℝ) *
          Complex.I) +
      (contrast2 : ℂ) * Complex.exp
        (((u.center.1 * Real.cos ori2 + u.center.2 * Real.sin ori2) / sf * (2 * Real.pi) + Δphase : ℝ) *
          Complex.I)) :
    u.get_response_plaid ori1 ori2 contrast1 contrast2 phase Δphase sf =
      u.nonlinear ((u.Rmax * Complex.abs v / (Complex.abs v + u.C50) + u.Rbase) *
        (2 * Real.sin (Complex.arg v + phase))) ∧
    u.get_response_plaid_curve ori1 ori2 contrast1 contrast2 phases Δphase sf =
      phases.map (fun p =>
        u.nonlinear ((u.Rmax * Complex.abs v / (Complex.abs v + u.C50) + u.Rbase) *
          (2 * Real.sin (Complex.arg v + p)))) := by
  constructor
  · exact plaid_scalar_formula u ori1 ori2 contrast1 contrast2 phase Δphase sf v hv
  · unfold LGNnode.get_response_plaid_curve
    exact congrArg (fun f => List.map f phases)
      (funext fun p => plaid_scalar_formula u ori1 ori2 contrast1 contrast2 p Δphase sf v hv)

/-- Witness for C4 at the concrete subunit u_relu, plaid orientations 0 and
π/2, both contrasts 48/100, phase 0, Δphase 0, sf 50, with the concrete
summed vector plaid_vec_example. -/
theorem plaid_response_formula_witness :
    (50:ℝ) ≠ 0 ∧
      u_relu.get_response_plaid 0 (Real.pi/2) (48/100) (48/100) 0 0 50 =
        u_relu.nonlinear
          ((u_relu.Rmax * Complex.abs plaid_vec_example /
              (Complex.abs plaid_vec_example + u_relu.C50) + u_relu.Rbase) *
            (2 * Real.sin (Complex.arg plaid_vec_example + 0))) :=
  ⟨by norm_num,
    (plaid_response_formula u_relu 0 (Real.pi/2) (48/100) (48/100) 0 0 50 []
      plaid_vec_example (by norm_num) rfl).1⟩

/-- C5 counterexample: a subunit with the relu nonlinearity, Rmax = 11.3 ≥ 0,
C50 = 1/2 > 0 but baseline Rbase = 1 has a nonzero grating response at
contrast 0 (at phase π/2 it is relu(CR(0) * 2 sin(π/2)) = relu(1 * 2) = 2),
because CR(0) = Rbase = 1 rather than 0: the claim fails for nonzero Rbase. -/
theorem grating_zero_contrast_rbase_counterexample :
    u_base.get_response_grating 0 0 (Real.pi / 2) 50 ≠ 0 := by
  have h : u_base.get_response_grating 0 0 (Real.pi / 2) 50 = 2 := by
    simp [LGNnode.get_response_grating, LGNnode.get_sinusoidal, LGNnode.get_contrast_response,
      LGNnode.dist_phase, u_base, Real.rpow_one, relu, Real.sin_pi_div_two]
  rw [h]
  norm_num

/-- C5 amended: for every subunit with the relu nonlinearity, Rmax ≥ 0,
C50 > 0 and baseline Rbase = 0, the grating response at contrast 0 equals
relu(0) = 0 for every phase, orientation and spatial frequency. -/
theorem grating_zero_contrast_zero_rbase (u : LGNnode) (hnl : u.nonlinear = relu)
    (hR : 0 ≤ u.Rmax) (hC : 0 < u.C50) (hb : u.Rbase = 0) (ori phase sf : ℝ) :
    u.get_response_grating ori 0 phase sf = 0 := by
  simp [LGNnode.get_response_grating, LGNnode.get_sinusoidal, LGNnode.get_contrast_response,
    Real.rpow_one, hnl, hb, relu]

/-- Witness for the amended C5 at the concrete subunit u_relu. -/
theorem grating_zero_contrast_zero_rbase_witness :
    u_relu.nonlinear = relu ∧ 0 ≤ u_relu.Rmax ∧ 0 < u_relu.C50 ∧ u_relu.Rbase = 0 ∧
      u_relu.get_response_grating 0 0 (Real.pi/2) 50 = 0 :=
  ⟨rfl, by norm_num [u_relu], by norm_num [u_relu], rfl,
    grating_zero_contrast_zero_rbase u_relu rfl (by norm_num [u_relu]) (by norm_num [u_relu])
      rfl 0 (Real.pi/2) 50⟩

/-- C6: for every parameter set with Rmax ≥ 0 and C50 > 0 and every
positive order (so that 0^order = 0, e.g. the default order = 1), the
contrast response transform at contrast 0 equals Rbase exactly. -/
theorem contrast_response_at_zero (u : LGNnode) (order : ℝ)
    (hR : 0 ≤ u.Rmax) (hC : 0 < u.C50) (ho : 0 < order) :
    u.get_contrast_response 0 order = u.Rbase := by
  rw [LGNnode.get_contrast_response, Real.zero_rpow (ne_of_gt ho)]
  simp

/-- Witness for C6 at the concrete subunit u_relu with order 1. -/
theorem contrast_response_at_zero_witness :
    0 ≤ u_relu.Rmax ∧ 0 < u_relu.C50 ∧ (0:ℝ) < 1 ∧
      u_relu.get_contrast_response 0 1 = u_relu.Rbase :=
  ⟨by norm_num [u_relu], by norm_num [u_relu], by norm_num,
    contrast_response_at_zero u_relu 1 (by norm_num [u_relu]) (by norm_num [u_relu]) (by norm_num)⟩

/-- C7: for every subunit, every orientation pair, contrast > 0, phase
(scalar or array), Δphase and sf ≠ 0, the plaid response with the second
contrast 0 equals the grating response of the first component exactly (in
real arithmetic). -/
theorem plaid_degenerates_to_grating (u : LGNnode)
    (ori1 ori2 contrast phase Δphase sf : ℝ) (phases : List ℝ)
    (hc : 0 < contrast) (hsf : sf ≠ 0) :
    u.get_response_plaid ori1 ori2 contrast 0 phase Δphase sf =
        u.get_response_grating ori1 contrast phase sf ∧
      u.get_response_plaid_curve ori1 ori2 contrast 0 phases Δphase sf =
        u.get_response_grating_curve ori1 contrast phases sf := by
  constructor
  · exact plaid_c2_zero_scalar u ori1 ori2 contrast phase Δphase sf hc
  · unfold LGNnode.get_response_plaid_curve LGNnode.get_response_grating_curve
    exact congrArg (fun f => List.map f phases)
      (funext fun p => plaid_c2_zero_scalar u ori1 ori2 contrast p Δphase sf hc)

/-- Witness for C7 at the concrete subunit u_relu. -/
theorem plaid_degenerates_to_grating_witness :
    (0:ℝ) < 48/100 ∧ (50:ℝ) ≠ 0 ∧
      u_relu.get_response_plaid 0 (Real.pi/2) (48/100) 0 0 0 50 =
        u_relu.get_response_grating 0 (48/100) 0 50 :=
  ⟨by norm_num, by norm_num,
    (plaid_degenerates_to_grating u_relu 0 (Real.pi/2) (48/100) 0 0 50 []
      (by norm_num) (by norm_num)).1⟩

/-- C8: for every subunit, orientation θ, contrast > 0, phase and sf ≠ 0,
the plaid response with ori1 = ori2 = θ, equal contrasts and Δphase = 0
equals the single grating response at θ with effective contrast 2 *
contrast (full constructive interference), with no special-casing. -/
theorem plaid_full_constructive (u : LGNnode) (θ contrast phase sf : ℝ)
    (hc : 0 < contrast) (hsf : sf ≠ 0) :
    u.get_response_plaid θ θ contrast contrast phase 0 sf =
      u.get_response_grating θ (2 * contrast) phase sf := by
  have hvec : u.plaid_vec θ θ contrast contrast 0 sf =
      ((2 * contrast : ℝ) : ℂ) * Complex.exp ((u.dist_phase θ sf : ℝ) * Complex.I) := by
    unfold LGNnode.plaid_vec
    simp only [add_zero]
    push_cast
    ring
  have h2c : (0:ℝ) < 2 * contrast := by linarith
  simp only [LGNnode.get_response_plaid, LGNnode.get_sinusoidal_plaid, hvec,
    abs_real_mul_exp_mul_I _ _ h2c.le, sin_arg_real_mul_exp_mul_I _ _ _ h2c,
    LGNnode.get_response_grating, LGNnode.get_sinusoidal]

/-- Witness for C8 at the concrete subunit u_relu. -/
theorem plaid_full_constructive_witness :
    (0:ℝ) < 48/100 ∧ (50:ℝ) ≠ 0 ∧
      u_relu.get_response_plaid 0 0 (48/100) (48/100) 0 0 50 =
        u_relu.get_response_grating 0 (2 * (48/100)) 0 50 :=
  ⟨by norm_num, by norm_num,
    plaid_full_constructive u_relu 0 (48/100) 0 50 (by norm_num) (by norm_num)⟩

/-- C9: for every parameter set with Rmax ≥ 0 and C50 > 0 and order 1,
the contrast response transform is monotonically non-decreasing on [0, 1]. -/
theorem contrast_response_monotone (u : LGNnode) (c1 c2 : ℝ)
    (hR : 0 ≤ u.Rmax) (hC : 0 < u.C50) (h0 : 0 ≤ c1) (h12 : c1 ≤ c2) (h21 : c2 ≤ 1) :
    u.get_contrast_response c1 1 ≤ u.get_contrast_response c2 1 := by
  simp only [LGNnode.get_contrast_response, Real.rpow_one]
  have hd1 : (0:ℝ) < c1 + u.C50 := by linarith
  have hd2 : (0:ℝ) < c2 + u.C50 := by linarith
  apply add_le_add_right
  rw [div_le_div_iff₀ hd1 hd2]
  nlinarith [mul_le_mul_of_nonneg_left h12 (mul_nonneg hR hC.le)]

/-- Witness for C9 at the concrete subunit u_relu with contrasts 1/4 ≤ 3/4. -/
theorem contrast_response_monotone_witness :
    0 ≤ u_relu.Rmax ∧ 0 < u_relu.C50 ∧ (0:ℝ) ≤ 1/4 ∧ (1/4:ℝ) ≤ 3/4 ∧ (3/4:ℝ) ≤ 1 ∧
      u_relu.get_contrast_response (1/4) 1 ≤ u_relu.get_contrast_response (3/4) 1 :=
  ⟨by norm_num [u_relu], by norm_num [u_relu], by norm_num, by norm_num, by norm_num,
    contrast_response_monotone u_relu (1/4) (3/4) (by norm_num [u_relu]) (by norm_num [u_relu])
      (by norm_num) (by norm_num) (by norm_num)⟩

/-- C10: every grating and plaid response of a subunit with the relu
nonlinearity is nonnegative, and consequently every entry of the grating
and plaid response curves of a population over a non-empty list of such
subunits is nonnegative. -/
theorem relu_responses_nonneg :
    (∀ u : LGNnode, u.nonlinear = relu → ∀ ori contrast phase sf : ℝ,
        0 ≤ u.get_response_grating ori contrast phase sf) ∧
      (∀ u : LGNnode, u.nonlinear = relu →
        ∀ ori1 ori2 contrast1 contrast2 phase Δphase sf : ℝ,
        0 ≤ u.get_response_plaid ori1 ori2 contrast1 contrast2 phase Δphase sf) ∧
      (∀ v : V1node, v.subunits ≠ [] → (∀ u ∈ v.subunits, u.nonlinear = relu) →
        ∀ (length : ℕ) (phase ori contrast sf : ℝ),
        ∀ x ∈ v.get_response_grating length phase ori contrast sf, 0 ≤ x) ∧
      (∀ v : V1node, v.subunits ≠ [] → (∀ u ∈ v.subunits, u.nonlinear = relu) →
        ∀ (length : ℕ) (phase ori1 ori2 contrast1 contrast2 Δphase sf : ℝ),
        ∀ x ∈ v.get_response_plaid length phase ori1 ori2 contrast1 contrast2 Δphase sf, 0 ≤ x) := by
  refine ⟨grating_response_nonneg, plaid_response_nonneg, ?_, ?_⟩
  · intro v hne hrelu length phase ori contrast sf x hx
    rw [V1node.get_response_grating] at hx
    rcases List.mem_map.mp hx with ⟨y, hy, rfl⟩
    refine div_nonneg ?_ (Nat.cast_nonneg _)
    refine foldl_zipWith_add_nonneg v.subunits _ ?_ _ ?_ y hy
    · intro u hu z hz
      rcases List.mem_map.mp hz with ⟨p, hp, rfl⟩
      exact grating_response_nonneg u (hrelu u hu) ori contrast p sf
    · intro z hz
      rw [List.eq_of_mem_replicate hz]
  · intro v hne hrelu length phase ori1 ori2 contrast1 contrast2 Δphase sf x hx
    rw [V1node.get_response_plaid] at hx
    rcases List.mem_map.mp hx with ⟨y, hy, rfl⟩
    refine div_nonneg ?_ (Nat.cast_nonneg _)
    refine foldl_zipWith_add_nonneg v.subunits _ ?_ _ ?_ y hy
    · intro u hu z hz
      rcases List.mem_map.mp hz with ⟨p, hp, rfl⟩
      exact plaid_response_nonneg u (hrelu u hu) ori1 ori2 contrast1 contrast2 p Δphase sf
    · intro z hz
      rw [List.eq_of_mem_replicate hz]

/-- Witness for C10: the subunit response of u_relu and the single entry of
the length-1 population curve over [u_relu] are both nonnegative. -/
theorem relu_responses_nonneg_witness :
    0 ≤ u_relu.get_response_grating 0 (48/100) 0 50 ∧
      0 ≤ (0 + u_relu.get_response_grating 0 (48/100) (0 + 0) 50) / ((1:ℕ) : ℝ) := by
  constructor
  · exact relu_responses_nonneg.1 u_relu rfl 0 (48/100) 0 50
  · have hlist : (V1node.mk [u_relu] relu).get_response_grating 1 0 0 (48/100) 50 =
        [(0 + u_relu.get_response_grating 0 (48/100) (0 + 0) 50) / ((1:ℕ) : ℝ)] := rfl
    refine relu_responses_nonneg.2.2.1 ⟨[u_relu], relu⟩ (by simp) ?_ 1 0 0 (48/100) 50 _ ?_
    · intro u hu
      rw [List.mem_singleton] at hu
      subst hu
      rfl
    · rw [hlist]
      exact List.mem_singleton.mpr rfl
